import Mathlib

/-!
Shallow embedding of the observability instrumentation layer
(`internal/observability`, tracing/metrics facade version with the
gauge adapter, dynamic counters and the HTTP middleware).

Modelling choices:
* Go `float64` values are embedded as `Rat` (the properties at stake are
  exact algebraic identities over the recorded values).
* The OpenTelemetry meter is embedded as `Option (String → Bool)`:
  `none` is the nil `metric.Meter` interface value (calling a method on it
  is a runtime panic), `some ok` is an installed meter whose instrument
  constructors succeed on name `n` iff `ok n = true` (abstracting
  exporter-level creation errors).
* Instruments are values carrying a creation id, description and unit;
  identity equality of instruments is equality of these records, and ids
  are issued from a counter in the state, so two distinct creations never
  produce the same instrument.
* Every observable side effect (counter add, histogram record, gauge
  delta add, span status attribute, log warning) is appended to an event
  trace in the state.
* Functions that can return a Go error or panic return a `GoResult`.
-/

/-- Attribute/label sets, as key-value string pairs. -/
abbrev Attrs := List (String × String)

/-- A metric instrument: creation id plus the metadata it was created with.
Identity of instruments is record equality; ids are unique per state. -/
structure Instr where
  id : Nat
  descr : String
  unit : String
deriving DecidableEq

/-- Observable effects emitted by the instrumentation layer. -/
inductive TEvent where
  /-- Go `counter.Add(ctx, value, attrs)` on the counter registered for `name`. -/
  | counterAdd (i : Instr) (name : String) (value : Int) (attrs : Attrs)
  /-- Go `histogram.Record(ctx, value, attrs)` on the histogram for `name`. -/
  | histogramRecord (i : Instr) (name : String) (value : Rat) (attrs : Attrs)
  /-- Go `gauge.Add(ctx, diff, attrs)` on the up-down counter backing gauge `name`. -/
  | gaugeAdd (i : Instr) (name : String) (diff : Rat) (attrs : Attrs)
  /-- the middleware attaching `http.status_code` to the request span. -/
  | spanStatus (code : Nat)
  /-- Go `log.Printf("Warning: ...")`. -/
  | logWarn (msg : String)
deriving DecidableEq

/-- Result of a Go call: normal return, returned `error`, or runtime panic. -/
inductive GoResult (α : Type) where
  | ok (a : α)
  | err
  | panic
deriving DecidableEq

/-- The package-level mutable state of the observability package:
the `tracer`/`meter` globals and the four package-level maps, plus the
event trace of effects performed so far. -/
structure TelemetryState where
  /-- the `meter` global: `none` = nil interface (pre-init / disabled). -/
  meter : Option (String → Bool)
  /-- whether the `tracer` global is non-nil. -/
  tracerSet : Bool
  counters : List (String × Instr)
  histograms : List (String × Instr)
  gauges : List (String × Instr)
  lastKnownValues : List (String × Rat)
  nextId : Nat
  events : List TEvent

/-- Lookup in a Go map embedded as an association list (latest insert first). -/
def mapLookup {α : Type} : List (String × α) → String → Option α
  | [], _ => none
  | (k', v) :: rest, k => if k = k' then some v else mapLookup rest k

/-- Go map assignment `m[k] = v` (overwrites any previous binding). -/
def mapInsert {α : Type} (m : List (String × α)) (k : String) (v : α) :
    List (String × α) :=
  (k, v) :: m

/-- The process-start state: nil tracer and meter, empty maps, no events. -/
def initialState : TelemetryState :=
  { meter := none, tracerSet := false, counters := [], histograms := [],
    gauges := [], lastKnownValues := [], nextId := 0, events := [] }

/-- Source `CreateCounter`: get-or-create an `Int64Counter`. On the create path it
calls `meter.Int64Counter` — a panic when `meter` is the nil interface. -/
def CreateCounter (s : TelemetryState) (name descr unit : String) :
    GoResult Instr × TelemetryState :=
  match mapLookup s.counters name with
  | some counter => (.ok counter, s)
  | none =>
    match s.meter with
    | none => (.panic, s)
    | some ok =>
      if ok name then
        let counter : Instr := ⟨s.nextId, descr, unit⟩
        (.ok counter,
          { s with counters := mapInsert s.counters name counter,
                   nextId := s.nextId + 1 })
      else (.err, s)

/-- Source `CreateHistogram`: get-or-create a `Float64Histogram`. -/
def CreateHistogram (s : TelemetryState) (name descr unit : String) :
    GoResult Instr × TelemetryState :=
  match mapLookup s.histograms name with
  | some histogram => (.ok histogram, s)
  | none =>
    match s.meter with
    | none => (.panic, s)
    | some ok =>
      if ok name then
        let histogram : Instr := ⟨s.nextId, descr, unit⟩
        (.ok histogram,
          { s with histograms := mapInsert s.histograms name histogram,
                   nextId := s.nextId + 1 })
      else (.err, s)

/-- Source `CreateGauge`: get-or-create a `Float64UpDownCounter`. -/
def CreateGauge (s : TelemetryState) (name descr unit : String) :
    GoResult Instr × TelemetryState :=
  match mapLookup s.gauges name with
  | some gauge => (.ok gauge, s)
  | none =>
    match s.meter with
    | none => (.panic, s)
    | some ok =>
      if ok name then
        let gauge : Instr := ⟨s.nextId, descr, unit⟩
        (.ok gauge,
          { s with gauges := mapInsert s.gauges name gauge,
                   nextId := s.nextId + 1 })
      else (.err, s)

/-- Source `CreateDynamicCounter`: return the existing counter or fall through to
`CreateCounter`. -/
def CreateDynamicCounter (s : TelemetryState) (name descr unit : String) :
    GoResult Instr × TelemetryState :=
  match mapLookup s.counters name with
  | some counter => (.ok counter, s)
  | none => CreateCounter s name descr unit

/-- Source `IncrementCounter`: lazily create the counter (generated description),
log and drop on creation error, otherwise add `value`. -/
def IncrementCounter (s : TelemetryState) (name : String) (value : Int)
    (attrs : Attrs) : GoResult Unit × TelemetryState :=
  match CreateDynamicCounter s name ("Dynamic counter for " ++ name) "" with
  | (.ok counter, s') =>
    (.ok (), { s' with
      events := s'.events ++ [.counterAdd counter name value attrs] })
  | (.err, s') =>
    (.ok (), { s' with
      events := s'.events ++
        [.logWarn ("Warning: Failed to create counter " ++ name)] })
  | (.panic, s') => (.panic, s')

/-- Source `RecordHistogram`: record when the histogram exists, otherwise log a
warning (histograms are never lazily created). -/
def RecordHistogram (s : TelemetryState) (name : String) (value : Rat)
    (attrs : Attrs) : TelemetryState :=
  match mapLookup s.histograms name with
  | some histogram =>
    { s with events := s.events ++ [.histogramRecord histogram name value attrs] }
  | none =>
    { s with events := s.events ++
        [.logWarn ("Warning: Histogram " ++ name ++ " not found")] }

/-- Source `getGaugeValue`: the last known value, Go map zero value `0` by default. -/
def getGaugeValue (s : TelemetryState) (name : String) : Rat :=
  (mapLookup s.lastKnownValues name).getD 0

/-- Source `SetGauge`: when the gauge exists, add `value - lastKnown` to the
underlying up-down counter and store `value`; otherwise do nothing
(the source's missing-gauge branch has no body: no log line). -/
def SetGauge (s : TelemetryState) (name : String) (value : Rat)
    (attrs : Attrs) : TelemetryState :=
  match mapLookup s.gauges name with
  | some gauge =>
    let current := getGaugeValue s name
    let diff := value - current
    { s with
      events := s.events ++ [.gaugeAdd gauge name diff attrs],
      lastKnownValues := mapInsert s.lastKnownValues name value }
  | none => s

/-- A span handle: a real recording span or the noop span. -/
inductive SpanHandle where
  | real
  | noop
deriving DecidableEq

/-- Source `StartSpan`: it guards `tracer == nil` and returns a noop span, so
it never panics. -/
def StartSpan (s : TelemetryState) : GoResult SpanHandle :=
  if s.tracerSet then .ok .real else .ok .noop

/-- Go `trace.SpanFromContext` never yields a nil span: with no span in the
context it returns the noop span. The context is embedded as the span it
may carry. -/
def SpanFromContext (ctx : Option SpanHandle) : SpanHandle :=
  ctx.getD .noop

/-- Source `AddEvent`: operates on `SpanFromContext ctx`, a no-op on a noop span;
never panics. -/
def AddEvent (ctx : Option SpanHandle) : GoResult Unit :=
  match SpanFromContext ctx with
  | .real => .ok ()
  | .noop => .ok ()

/-- Source `SetAttributes`: same shape as `AddEvent`; never panics. -/
def SetAttributes (ctx : Option SpanHandle) : GoResult Unit :=
  match SpanFromContext ctx with
  | .real => .ok ()
  | .noop => .ok ()

/-- The built-in instrument catalog declared by `createMetrics`
(name, description, unit, kind). -/
def builtinMetrics : List (String × String × String × String) :=
  [("memory_alloc_bytes", "Current memory allocation in bytes", "bytes", "gauge"),
   ("memory_total_alloc_bytes", "Total memory allocation in bytes", "bytes", "gauge"),
   ("memory_sys_bytes", "System memory obtained in bytes", "bytes", "gauge"),
   ("num_goroutines", "Number of goroutines", "", "gauge"),
   ("num_cpu", "Number of CPUs", "", "gauge"),
   ("gc_runs_total", "Total number of completed GC cycles", "", "counter"),
   ("http_request_duration_seconds", "HTTP request duration in seconds", "s", "histogram"),
   ("http_requests_total", "Total number of HTTP requests", "", "counter")]

/-- One step of `createMetrics`'s loop: dispatch on the kind tag. -/
def createOneMetric (s : TelemetryState)
    (m : String × String × String × String) : GoResult Unit × TelemetryState :=
  match m with
  | (name, descr, unit, kind) =>
    if kind = "counter" then
      match CreateCounter s name descr unit with
      | (.ok _, s') => (.ok (), s')
      | (.err, s') => (.err, s')
      | (.panic, s') => (.panic, s')
    else if kind = "gauge" then
      match CreateGauge s name descr unit with
      | (.ok _, s') => (.ok (), s')
      | (.err, s') => (.err, s')
      | (.panic, s') => (.panic, s')
    else if kind = "histogram" then
      match CreateHistogram s name descr unit with
      | (.ok _, s') => (.ok (), s')
      | (.err, s') => (.err, s')
      | (.panic, s') => (.panic, s')
    else (.err, s)

/-- Source `createMetrics`: declare the built-in instruments, stopping at the
first failure. -/
def createMetricsFrom (s : TelemetryState)
    (ms : List (String × String × String × String)) :
    GoResult Unit × TelemetryState :=
  match ms with
  | [] => (.ok (), s)
  | m :: rest =>
    match createOneMetric s m with
    | (.ok _, s') => createMetricsFrom s' rest
    | (.err, s') => (.err, s')
    | (.panic, s') => (.panic, s')

/-- Source `createMetrics` over the built-in catalog. -/
def createMetrics (s : TelemetryState) : GoResult Unit × TelemetryState :=
  createMetricsFrom s builtinMetrics

/-- Source `InitTelemetry`: the disabled branch installs global noop providers but
leaves the package-level `tracer` and `meter` variables untouched (nil);
the enabled branch installs the meter and tracer, declares the built-in
instruments and launches the sampler (modelled separately). The exporter
construction is abstracted into the meter oracle `ok`. -/
def InitTelemetry (enableTelemetry : Bool) (ok : String → Bool) :
    GoResult TelemetryState :=
  if !enableTelemetry then
    .ok initialState
  else
    match createMetrics { initialState with meter := some ok, tracerSet := true } with
    | (.ok _, s) => .ok s
    | (.err, _) => .err
    | (.panic, _) => .panic

/-- A meter whose instrument creation always succeeds. -/
def allOk : String → Bool := fun _ => true

/-- The state right after a successful enabled-mode `InitTelemetry` with an
always-succeeding meter. -/
def enabledState : TelemetryState :=
  (createMetrics { initialState with meter := some allOk, tracerSet := true }).2

/-- ASCII-alphanumeric test, exactly the rune ranges the source checks. -/
def isAlnumChar (r : Char) : Bool :=
  (decide ('a' ≤ r) && decide (r ≤ 'z')) ||
  (decide ('A' ≤ r) && decide (r ≤ 'Z')) ||
  (decide ('0' ≤ r) && decide (r ≤ '9'))

/-- The rune mapping used by `sanitizePath`: keep ASCII alphanumerics,
replace everything else with the underscore filler. -/
def sanitizeChar (r : Char) : Char :=
  if isAlnumChar r then r else '_'

/-- Source `sanitizePath`: `strings.Map` of `sanitizeChar` over the path's runes. -/
def sanitizePath (path : String) : String :=
  String.mk (path.data.map sanitizeChar)

/-- Go `strings.ToLower`, embedded as the rune-wise lowercase map. -/
def goToLower (s : String) : String :=
  String.mk (s.data.map Char.toLower)

/-- The dynamic per-route counter name the middleware builds:
`fmt.Sprintf("http_requests_%s_%s", strings.ToLower(method), sanitizePath(path))`. -/
def routeCounterName (method path : String) : String :=
  "http_requests_" ++ goToLower method ++ "_" ++ sanitizePath path

/-- What the wrapped handler does to its response writer, abstracted to the
operations that matter to `customResponseWriter`: explicit `WriteHeader`
calls and body writes (`Write`, which `customResponseWriter` does not
override and which leaves `statusCode` untouched). -/
inductive WriterOp where
  | writeHeader (code : Nat)
  | writeBody
deriving DecidableEq

/-- The `statusCode` field of `customResponseWriter` after the handler ran:
initialized to `http.StatusOK` (200); every `WriteHeader(c)` overwrites it
with `c`. -/
def recordedStatus (ops : List WriterOp) : Nat :=
  ops.foldl
    (fun st op =>
      match op with
      | .writeHeader c => c
      | .writeBody => st)
    200

/-- Source `TraceMiddleware` around one request: start the span, run the handler
against the wrapping writer, attach the captured status to the span,
record the duration histogram, increment the total counter and the
dynamic per-route counter. `duration` abstracts the measured wall-clock
time. A panic from `IncrementCounter` propagates out of the request. -/
def TraceMiddleware (s : TelemetryState) (method path : String)
    (ops : List WriterOp) (duration : Rat) : GoResult Unit × TelemetryState :=
  let status := recordedStatus ops
  let s1 := { s with events := s.events ++ [.spanStatus status] }
  let labels : Attrs :=
    [("method", method), ("path", path), ("status", toString status)]
  let s2 := RecordHistogram s1 "http_request_duration_seconds" duration labels
  match IncrementCounter s2 "http_requests_total" 1 labels with
  | (.panic, s3) => (.panic, s3)
  | (_, s3) =>
    match IncrementCounter s3 (routeCounterName method path) 1
        [("status", toString status)] with
    | (.panic, s4) => (.panic, s4)
    | (_, s4) => (.ok (), s4)

/-- The registry/adapter call surface, for quantifying over call sequences. -/
inductive Op where
  | createCounter (n d u : String)
  | createHistogram (n d u : String)
  | createGauge (n d u : String)
  | incrementCounter (n : String) (v : Int) (a : Attrs)
  | recordHistogram (n : String) (v : Rat) (a : Attrs)
  | setGauge (n : String) (v : Rat) (a : Attrs)

/-- Run one registry call for its state effect. -/
def runOp (s : TelemetryState) : Op → TelemetryState
  | .createCounter n d u => (CreateCounter s n d u).2
  | .createHistogram n d u => (CreateHistogram s n d u).2
  | .createGauge n d u => (CreateGauge s n d u).2
  | .incrementCounter n v a => (IncrementCounter s n v a).2
  | .recordHistogram n v a => RecordHistogram s n v a
  | .setGauge n v a => SetGauge s n v a

/-- Run a sequence of registry calls. -/
def runOps (s : TelemetryState) (ops : List Op) : TelemetryState :=
  ops.foldl runOp s

/-- Fold `SetGauge` over a sequence of values for one gauge name. -/
def setGaugeSeq (s : TelemetryState) (n : String) (vs : List Rat) :
    TelemetryState :=
  vs.foldl (fun st v => SetGauge st n v []) s

/-- The delta an event applies to the accumulator backing gauge `n`. -/
def gaugeDelta (n : String) : TEvent → Rat
  | .gaugeAdd _ m d _ => if m = n then d else 0
  | _ => 0

/-- Sum of the deltas applied to the accumulator backing gauge `n`. -/
def gaugeDeltaSum (evs : List TEvent) (n : String) : Rat :=
  (evs.map (gaugeDelta n)).sum

/-- Whether an event is a histogram observation on `n`. -/
def isHistObs (n : String) : TEvent → Bool
  | .histogramRecord _ m _ _ => m = n
  | _ => false

/-- Whether an event is a counter add on `n`. -/
def isCounterAdd (n : String) : TEvent → Bool
  | .counterAdd _ m _ _ => m = n
  | _ => false

/-- Whether an event is a counter add of exactly 1 on `n`. -/
def isCounterAddOne (n : String) : TEvent → Bool
  | .counterAdd _ m v _ => m = n && v == 1
  | _ => false

/-- Whether an event is a logged warning. -/
def isLogWarn : TEvent → Bool
  | .logWarn _ => true
  | _ => false

/-- Whether an event is a write performed through the gauge adapter or a
counter (the writes the sampler performs). -/
def isMetricWrite : TEvent → Bool
  | .gaugeAdd _ _ _ _ => true
  | .counterAdd _ _ _ _ => true
  | _ => false

/-!
The system sampler `updateSystemMetrics` as a state machine. The loop body
is a `select` between `ctx.Done()` and the 10-second ticker; the ticker
fires independently of cancellation, so a tick branch stays selectable
while the loop is running, whether or not the done channel is already
closed — Go's `select` chooses among ready channels. A `cancel` step
models the environment closing the context's done channel.
-/

/-- The loop is either still running or has returned. -/
inductive SamplerPhase where
  | running
  | stopped
deriving DecidableEq

/-- One reading of the runtime stats the sampler publishes. -/
structure MemSample where
  alloc : Rat
  totalAlloc : Rat
  sys : Rat
  goroutines : Rat
  cpu : Rat
  numGC : Nat

/-- The sampler's state: loop phase, whether its context's done channel is
closed, whether the ticker is still live, the `lastNumGC` local, and the
shared telemetry state it writes through. -/
structure SamplerState where
  phase : SamplerPhase
  cancelled : Bool
  tickerActive : Bool
  lastNumGC : Nat
  tel : TelemetryState

/-- One tick body: publish the five gauges; increment `gc_runs_total` by
the GC cycles since the last observed count, when positive. -/
def sampleTick (tel : TelemetryState) (lastNumGC : Nat) (m : MemSample) :
    TelemetryState × Nat :=
  let t1 := SetGauge tel "memory_alloc_bytes" m.alloc []
  let t2 := SetGauge t1 "memory_total_alloc_bytes" m.totalAlloc []
  let t3 := SetGauge t2 "memory_sys_bytes" m.sys []
  let t4 := SetGauge t3 "num_goroutines" m.goroutines []
  let t5 := SetGauge t4 "num_cpu" m.cpu []
  let gcRuns := m.numGC - lastNumGC
  if 0 < gcRuns then
    ((IncrementCounter t5 "gc_runs_total" (Int.ofNat gcRuns) []).2, m.numGC)
  else
    (t5, lastNumGC)

/-- The sampler's step relation. -/
inductive SamplerStep : SamplerState → SamplerState → Prop where
  /-- the environment cancels the context (closes the done channel). -/
  | cancel (s : SamplerState) (h : s.cancelled = false) :
      SamplerStep s { s with cancelled := true }
  /-- the loop selects the `ctx.Done()` branch: return; the deferred
  `ticker.Stop()` runs. Selectable only once the done channel is closed. -/
  | selectDone (s : SamplerState) (hr : s.phase = .running)
      (hc : s.cancelled = true) :
      SamplerStep s { s with phase := .stopped, tickerActive := false }
  /-- the loop selects a ticker fire and runs the tick body. The ticker is
  ready every interval regardless of cancellation, so this branch needs
  only the loop to still be running. -/
  | selectTick (s : SamplerState) (hr : s.phase = .running) (m : MemSample) :
      SamplerStep s
        { s with tel := (sampleTick s.tel s.lastNumGC m).1,
                 lastNumGC := (sampleTick s.tel s.lastNumGC m).2 }

/-- Reachability in the sampler's step relation. -/
inductive SamplerReach : SamplerState → SamplerState → Prop where
  | refl (s : SamplerState) : SamplerReach s s
  | step {s t u : SamplerState} (h : SamplerStep s t) (h' : SamplerReach t u) :
      SamplerReach s u

/-- The sampler as launched by enabled-mode `InitTelemetry`:
`go updateSystemMetrics(context.Background())` — running, not cancelled,
on the freshly initialized telemetry state. `context.Background()` has no
cancel function, so no step of the launched process ever closes its done
channel; the `cancel` step below exists only for the cancellable-context
analysis. -/
def launchedSampler : SamplerState :=
  { phase := .running, cancelled := false, tickerActive := true,
    lastNumGC := 0, tel := enabledState }

/-- A meterful state with empty registries, for concrete instantiations. -/
def meterOnlyState : TelemetryState :=
  { initialState with meter := some allOk, tracerSet := true }

/-- A meter oracle that fails creation exactly for the name "bad". -/
def failBadOracle : String → Bool := fun m => !(m == "bad")

/-- A meterful empty-registry state whose meter fails on name "bad". -/
def failBadState : TelemetryState :=
  { initialState with meter := some failBadOracle, tracerSet := true }

/-- A telemetry state with a meter installed but nothing registered. -/
def noGaugeState : TelemetryState :=
  { initialState with meter := some allOk, tracerSet := true }

/-- How one registry call can change one instrument map: unchanged, or
extended at a name that was unbound. -/
def MapGrowth (m m' : List (String × Instr)) : Prop :=
  m' = m ∨ ∃ k v, mapLookup m k = none ∧ m' = mapInsert m k v

/-- The launched sampler state after its done channel is closed. -/
def cancelledSampler : SamplerState :=
  { launchedSampler with cancelled := true }

/-- A concrete runtime-stats reading for one tick. -/
def tickSample : MemSample :=
  { alloc := 1, totalAlloc := 2, sys := 3, goroutines := 4, cpu := 5, numGC := 0 }

/-- The sampler after it has taken the done branch. -/
def stoppedSampler : SamplerState :=
  { launchedSampler with
    phase := .stopped, cancelled := true, tickerActive := false }

/-! ## Helper lemmas -/

theorem mapLookup_insert_self {α : Type} (m : List (String × α)) (k : String)
    (v : α) : mapLookup (mapInsert m k v) k = some v := by
  simp [mapInsert, mapLookup]

theorem mapLookup_insert_ne {α : Type} (m : List (String × α)) (k k' : String)
    (v : α) (h : k' ≠ k) : mapLookup (mapInsert m k v) k' = mapLookup m k' := by
  simp [mapInsert, mapLookup, h]

theorem gaugeDeltaSum_append (a b : List TEvent) (n : String) :
    gaugeDeltaSum (a ++ b) n = gaugeDeltaSum a n + gaugeDeltaSum b n := by
  simp [gaugeDeltaSum]

theorem setGauge_hit (s : TelemetryState) (n : String) (v : Rat) (attrs : Attrs)
    (g : Instr) (hg : mapLookup s.gauges n = some g) :
    SetGauge s n v attrs =
      { s with
          events := s.events ++ [.gaugeAdd g n (v - getGaugeValue s n) attrs],
          lastKnownValues := mapInsert s.lastKnownValues n v } := by
  unfold SetGauge
  rw [hg]

theorem setGauge_gauges (s : TelemetryState) (n : String) (v : Rat)
    (attrs : Attrs) : (SetGauge s n v attrs).gauges = s.gauges := by
  unfold SetGauge
  cases h : mapLookup s.gauges n <;> simp

theorem setGauge_lastKnown_hit (s : TelemetryState) (n : String) (v : Rat)
    (attrs : Attrs) (g : Instr) (hg : mapLookup s.gauges n = some g) :
    getGaugeValue (SetGauge s n v attrs) n = v := by
  rw [setGauge_hit s n v attrs g hg]
  simp [getGaugeValue, mapLookup_insert_self]

theorem setGauge_deltaSum_hit (s : TelemetryState) (n : String) (v : Rat)
    (attrs : Attrs) (g : Instr) (hg : mapLookup s.gauges n = some g) :
    gaugeDeltaSum (SetGauge s n v attrs).events n =
      gaugeDeltaSum s.events n + (v - getGaugeValue s n) := by
  rw [setGauge_hit s n v attrs g hg]
  simp [gaugeDeltaSum_append, gaugeDeltaSum, gaugeDelta]

theorem setGaugeSeq_invariant (n : String) (g : Instr) :
    ∀ (vs : List Rat) (s : TelemetryState), mapLookup s.gauges n = some g →
      getGaugeValue (setGaugeSeq s n vs) n = vs.getLastD (getGaugeValue s n) ∧
      gaugeDeltaSum (setGaugeSeq s n vs).events n =
        gaugeDeltaSum s.events n +
          (vs.getLastD (getGaugeValue s n) - getGaugeValue s n) ∧
      mapLookup (setGaugeSeq s n vs).gauges n = some g := by
  intro vs
  induction vs with
  | nil =>
    intro s hg
    exact ⟨rfl, by simp [setGaugeSeq, List.getLastD], hg⟩
  | cons v rest ih =>
    intro s hg
    have hseq : setGaugeSeq s n (v :: rest) =
        setGaugeSeq (SetGauge s n v []) n rest := rfl
    have hg' : mapLookup (SetGauge s n v []).gauges n = some g := by
      rw [setGauge_gauges]; exact hg
    obtain ⟨h1, h2, h3⟩ := ih (SetGauge s n v []) hg'
    have hlk : getGaugeValue (SetGauge s n v []) n = v :=
      setGauge_lastKnown_hit s n v [] g hg
    have hds : gaugeDeltaSum (SetGauge s n v []).events n =
        gaugeDeltaSum s.events n + (v - getGaugeValue s n) :=
      setGauge_deltaSum_hit s n v [] g hg
    rw [hseq]
    refine ⟨?_, ?_, h3⟩
    · rw [h1, hlk, List.getLastD_cons]
    · rw [h2, hds, hlk, List.getLastD_cons]
      ring

/-! ## C1 -/

/-- C1: for every name with a registered gauge, starting where
`lastKnownValues[n]` is the default 0 (and no deltas have been applied to
its accumulator), folding `SetGauge(n, vᵢ)` over any nonempty value
sequence leaves the cumulative accumulator delta equal to `vk - 0`, the
last set value, regardless of intermediate values; and after each single
call `lastKnownValues[n]` equals the value just set. -/
theorem C1_gauge_deltas_converge (s : TelemetryState) (n : String) (g : Instr)
    (vs : List Rat) (hg : mapLookup s.gauges n = some g)
    (h0 : getGaugeValue s n = 0) (hsum : gaugeDeltaSum s.events n = 0)
    (_hne : vs ≠ []) :
    gaugeDeltaSum (setGaugeSeq s n vs).events n = vs.getLastD 0 - 0 ∧
    getGaugeValue (setGaugeSeq s n vs) n = vs.getLastD 0 ∧
    ∀ (s' : TelemetryState) (v : Rat) (attrs : Attrs) (g' : Instr),
      mapLookup s'.gauges n = some g' →
      getGaugeValue (SetGauge s' n v attrs) n = v := by
  obtain ⟨h1, h2, _⟩ := setGaugeSeq_invariant n g vs s hg
  rw [h0] at h1 h2
  rw [hsum] at h2
  refine ⟨by rw [h2]; ring, h1, ?_⟩
  intro s' v attrs g' hg'
  exact setGauge_lastKnown_hit s' n v attrs g' hg'

/-- Witness for C1 at the state after enabled-mode initialization and the
value sequence `[5, 3]` for `memory_alloc_bytes`. -/
theorem C1_gauge_deltas_converge_witness :
    gaugeDeltaSum
        (setGaugeSeq enabledState "memory_alloc_bytes" [5, 3]).events
        "memory_alloc_bytes" = ([5, 3] : List Rat).getLastD 0 - 0 ∧
    getGaugeValue (setGaugeSeq enabledState "memory_alloc_bytes" [5, 3])
        "memory_alloc_bytes" = ([5, 3] : List Rat).getLastD 0 ∧
    ∀ (s' : TelemetryState) (v : Rat) (attrs : Attrs) (g' : Instr),
      mapLookup s'.gauges "memory_alloc_bytes" = some g' →
      getGaugeValue (SetGauge s' "memory_alloc_bytes" v attrs)
        "memory_alloc_bytes" = v :=
  C1_gauge_deltas_converge enabledState "memory_alloc_bytes"
    ⟨0, "Current memory allocation in bytes", "bytes"⟩ [5, 3]
    (by decide) (by decide) (by decide) (by decide)

/-! ## C2 -/

/-- C2: with `enableTelemetry=false` `InitTelemetry` returns early leaving
the package-level `tracer` and `meter` variables nil. `StartSpan`,
`AddEvent`, `SetAttributes`, `RecordHistogram` and `SetGauge` then indeed
complete without panicking, but `IncrementCounter` reaches
`meter.Int64Counter` on the nil meter interface and panics — the claim's
(and the spec's) zero-panic guarantee for the disabled mode is violated by
the code on the `IncrementCounter` leg. -/
theorem C2_disabled_mode_call_surface :
    InitTelemetry false allOk = .ok initialState ∧
    StartSpan initialState = .ok .noop ∧
    AddEvent none = .ok () ∧
    SetAttributes none = .ok () ∧
    RecordHistogram initialState "h" 1 [] =
      { initialState with
          events := [.logWarn "Warning: Histogram h not found"] } ∧
    SetGauge initialState "g" 1 [] = initialState ∧
    (IncrementCounter initialState "requests" 1 []).1 = .panic :=
  ⟨rfl, rfl, rfl, rfl, rfl, rfl, rfl⟩

/-! ## C4 -/

theorem createCounter_of_exists (s : TelemetryState) (n d u : String)
    (c : Instr) (h : mapLookup s.counters n = some c) :
    CreateCounter s n d u = (.ok c, s) := by
  unfold CreateCounter
  rw [h]

theorem createCounter_ok_lookup (s : TelemetryState) (n d u : String)
    (c : Instr) (s₁ : TelemetryState) (h : CreateCounter s n d u = (.ok c, s₁)) :
    mapLookup s₁.counters n = some c := by
  unfold CreateCounter at h
  split at h
  next c0 hlook =>
    simp only [Prod.mk.injEq, GoResult.ok.injEq] at h
    obtain ⟨rfl, rfl⟩ := h
    exact hlook
  next hlook =>
    split at h
    next hm => simp at h
    next ok hm =>
      split at h
      next hok =>
        simp only [Prod.mk.injEq, GoResult.ok.injEq] at h
        obtain ⟨rfl, rfl⟩ := h
        exact mapLookup_insert_self s.counters n _
      next hok => simp at h

theorem createHistogram_of_exists (s : TelemetryState) (n d u : String)
    (c : Instr) (h : mapLookup s.histograms n = some c) :
    CreateHistogram s n d u = (.ok c, s) := by
  unfold CreateHistogram
  rw [h]

theorem createHistogram_ok_lookup (s : TelemetryState) (n d u : String)
    (c : Instr) (s₁ : TelemetryState)
    (h : CreateHistogram s n d u = (.ok c, s₁)) :
    mapLookup s₁.histograms n = some c := by
  unfold CreateHistogram at h
  split at h
  next c0 hlook =>
    simp only [Prod.mk.injEq, GoResult.ok.injEq] at h
    obtain ⟨rfl, rfl⟩ := h
    exact hlook
  next hlook =>
    split at h
    next hm => simp at h
    next ok hm =>
      split at h
      next hok =>
        simp only [Prod.mk.injEq, GoResult.ok.injEq] at h
        obtain ⟨rfl, rfl⟩ := h
        exact mapLookup_insert_self s.histograms n _
      next hok => simp at h

theorem createGauge_of_exists (s : TelemetryState) (n d u : String)
    (c : Instr) (h : mapLookup s.gauges n = some c) :
    CreateGauge s n d u = (.ok c, s) := by
  unfold CreateGauge
  rw [h]

theorem createGauge_ok_lookup (s : TelemetryState) (n d u : String)
    (c : Instr) (s₁ : TelemetryState) (h : CreateGauge s n d u = (.ok c, s₁)) :
    mapLookup s₁.gauges n = some c := by
  unfold CreateGauge at h
  split at h
  next c0 hlook =>
    simp only [Prod.mk.injEq, GoResult.ok.injEq] at h
    obtain ⟨rfl, rfl⟩ := h
    exact hlook
  next hlook =>
    split at h
    next hm => simp at h
    next ok hm =>
      split at h
      next hok =>
        simp only [Prod.mk.injEq, GoResult.ok.injEq] at h
        obtain ⟨rfl, rfl⟩ := h
        exact mapLookup_insert_self s.gauges n _
      next hok => simp at h

/-- C4: after a first successful get-or-create for a name, a second call of
the same kind with the same name returns exactly the stored instrument —
identity equality — with no error and no replacement of the stored state. -/
theorem C4_get_or_create_idem :
    (∀ (s : TelemetryState) (n d u d' u' : String) (c : Instr)
        (s₁ : TelemetryState), CreateCounter s n d u = (.ok c, s₁) →
      CreateCounter s₁ n d' u' = (.ok c, s₁)) ∧
    (∀ (s : TelemetryState) (n d u d' u' : String) (c : Instr)
        (s₁ : TelemetryState), CreateHistogram s n d u = (.ok c, s₁) →
      CreateHistogram s₁ n d' u' = (.ok c, s₁)) ∧
    (∀ (s : TelemetryState) (n d u d' u' : String) (c : Instr)
        (s₁ : TelemetryState), CreateGauge s n d u = (.ok c, s₁) →
      CreateGauge s₁ n d' u' = (.ok c, s₁)) :=
  ⟨fun s n d u d' u' c s₁ h =>
      createCounter_of_exists s₁ n d' u' c (createCounter_ok_lookup s n d u c s₁ h),
   fun s n d u d' u' c s₁ h =>
      createHistogram_of_exists s₁ n d' u' c (createHistogram_ok_lookup s n d u c s₁ h),
   fun s n d u d' u' c s₁ h =>
      createGauge_of_exists s₁ n d' u' c (createGauge_ok_lookup s n d u c s₁ h)⟩

/-- Witness for C4: the three get-or-create pairs at concrete names. -/
theorem C4_get_or_create_idem_witness :
    CreateCounter (CreateCounter meterOnlyState "jobs" "d" "u").2 "jobs" "d2" "u2" =
      (.ok ⟨0, "d", "u"⟩, (CreateCounter meterOnlyState "jobs" "d" "u").2) ∧
    CreateHistogram (CreateHistogram meterOnlyState "lat" "d" "s").2 "lat" "d2" "u2" =
      (.ok ⟨0, "d", "s"⟩, (CreateHistogram meterOnlyState "lat" "d" "s").2) ∧
    CreateGauge (CreateGauge meterOnlyState "mem" "d" "b").2 "mem" "d2" "u2" =
      (.ok ⟨0, "d", "b"⟩, (CreateGauge meterOnlyState "mem" "d" "b").2) :=
  ⟨C4_get_or_create_idem.1 meterOnlyState "jobs" "d" "u" "d2" "u2" ⟨0, "d", "u"⟩ _ rfl,
   C4_get_or_create_idem.2.1 meterOnlyState "lat" "d" "s" "d2" "u2" ⟨0, "d", "s"⟩ _ rfl,
   C4_get_or_create_idem.2.2 meterOnlyState "mem" "d" "b" "d2" "u2" ⟨0, "d", "b"⟩ _ rfl⟩


/-! ## C5 -/

/-- Counterexample to C5 as stated: before any telemetry initialization
(or after disabled-mode initialization) the `meter` global is the nil
interface, and `IncrementCounter` for a missing counter name reaches
`meter.Int64Counter` and panics instead of creating the counter — so
"IncrementCounter never panics" does not hold unconditionally. -/
theorem C5_increment_counter_panics_without_meter :
    (IncrementCounter { initialState with tracerSet := true } "orders" 2 []).1 =
      GoResult.panic :=
  rfl

theorem incrementCounter_existing (s : TelemetryState) (n : String) (v : Int)
    (attrs : Attrs) (c : Instr) (hc : mapLookup s.counters n = some c) :
    IncrementCounter s n v attrs =
      (.ok (), { s with events := s.events ++ [.counterAdd c n v attrs] }) := by
  unfold IncrementCounter CreateDynamicCounter
  rw [hc]

theorem incrementCounter_create_ok (s : TelemetryState) (ok : String → Bool)
    (n : String) (v : Int) (attrs : Attrs)
    (hlook : mapLookup s.counters n = none) (hm : s.meter = some ok)
    (hok : ok n = true) :
    IncrementCounter s n v attrs =
      (.ok (), { s with
        counters := mapInsert s.counters n
          ⟨s.nextId, "Dynamic counter for " ++ n, ""⟩,
        nextId := s.nextId + 1,
        events := s.events ++
          [.counterAdd ⟨s.nextId, "Dynamic counter for " ++ n, ""⟩ n v attrs] }) := by
  simp [IncrementCounter, CreateDynamicCounter, CreateCounter, hlook, hm, hok]

theorem incrementCounter_create_err (s : TelemetryState) (ok : String → Bool)
    (n : String) (v : Int) (attrs : Attrs)
    (hlook : mapLookup s.counters n = none) (hm : s.meter = some ok)
    (hok : ok n = false) :
    IncrementCounter s n v attrs =
      (.ok (), { s with events := s.events ++
          [.logWarn ("Warning: Failed to create counter " ++ n)] }) := by
  simp [IncrementCounter, CreateDynamicCounter, CreateCounter, hlook, hm, hok]

/-- C5 amended: provided telemetry was initialized so that a meter is
installed (`meter` non-nil), `IncrementCounter` on a missing counter name
lazily creates it with the generated description
`"Dynamic counter for <name>"`; if that creation fails with an error the
failure is logged, the increment is dropped, and the call still returns
normally — no panic and no error escapes to the caller. -/
theorem C5_increment_lazy_create_amended (s : TelemetryState)
    (ok : String → Bool) (n : String) (v : Int) (attrs : Attrs)
    (hm : s.meter = some ok) :
    (IncrementCounter s n v attrs).1 = GoResult.ok () ∧
    (mapLookup s.counters n = none → ok n = true →
      mapLookup (IncrementCounter s n v attrs).2.counters n =
        some ⟨s.nextId, "Dynamic counter for " ++ n, ""⟩ ∧
      (IncrementCounter s n v attrs).2.events =
        s.events ++
          [.counterAdd ⟨s.nextId, "Dynamic counter for " ++ n, ""⟩ n v attrs]) ∧
    (mapLookup s.counters n = none → ok n = false →
      (IncrementCounter s n v attrs).2 =
        { s with events := s.events ++
            [.logWarn ("Warning: Failed to create counter " ++ n)] }) := by
  cases hlook : mapLookup s.counters n with
  | some c =>
    rw [incrementCounter_existing s n v attrs c hlook]
    refine ⟨rfl, ?_, ?_⟩
    · intro hnone _
      simp [hlook] at hnone
    · intro hnone _
      simp [hlook] at hnone
  | none =>
    cases hok : ok n with
    | true =>
      rw [incrementCounter_create_ok s ok n v attrs hlook hm hok]
      refine ⟨rfl, ?_, ?_⟩
      · intro _ _
        exact ⟨mapLookup_insert_self s.counters n _, rfl⟩
      · intro _ hfalse
        simp [hok] at hfalse
    | false =>
      rw [incrementCounter_create_err s ok n v attrs hlook hm hok]
      refine ⟨rfl, ?_, ?_⟩
      · intro _ htrue
        simp [hok] at htrue
      · intro _ _
        rfl

/-- Witness for C5 amended: a failing creation is logged and dropped with a
normal return, and a succeeding creation registers the dynamic counter. -/
theorem C5_increment_lazy_create_amended_witness :
    ((IncrementCounter failBadState "bad" 1 []).1 = GoResult.ok () ∧
      (IncrementCounter failBadState "bad" 1 []).2 =
        { failBadState with events := failBadState.events ++
            [.logWarn "Warning: Failed to create counter bad"] }) ∧
    mapLookup (IncrementCounter failBadState "good" 1 []).2.counters "good" =
      some ⟨0, "Dynamic counter for good", ""⟩ :=
  ⟨⟨(C5_increment_lazy_create_amended failBadState failBadOracle "bad" 1 [] rfl).1,
    (C5_increment_lazy_create_amended failBadState failBadOracle "bad" 1 [] rfl).2.2
      rfl rfl⟩,
   ((C5_increment_lazy_create_amended failBadState failBadOracle "good" 1 [] rfl).2.1
      rfl rfl).1⟩

/-! ## C6 -/

/-- Counterexample to C6 as stated: `SetGauge` on a never-declared gauge
name is a silent no-op — the state is returned unchanged and, in
particular, NO warning is logged (the log trace stays empty), while the
claim asserts a logged warning for both `RecordHistogram` and `SetGauge`. -/
theorem C6_set_gauge_missing_logs_nothing :
    SetGauge noGaugeState "undeclared_gauge" 7 [] = noGaugeState ∧
    List.countP isLogWarn (SetGauge noGaugeState "undeclared_gauge" 7 []).events = 0 :=
  ⟨rfl, rfl⟩

/-- C6 amended: recording against a histogram name never declared is a
no-op with a logged warning (no observation, no other state change);
setting a gauge name never declared is a silent no-op — no accumulator
update, no `lastKnownValues` change, no log line, no error, no panic. -/
theorem C6_missing_instrument_amended :
    (∀ (s : TelemetryState) (n : String) (v : Rat) (a : Attrs),
      mapLookup s.histograms n = none →
      RecordHistogram s n v a =
        { s with events := s.events ++
            [.logWarn ("Warning: Histogram " ++ n ++ " not found")] }) ∧
    (∀ (s : TelemetryState) (n : String) (v : Rat) (a : Attrs),
      mapLookup s.gauges n = none → SetGauge s n v a = s) := by
  constructor
  · intro s n v a h
    unfold RecordHistogram
    rw [h]
  · intro s n v a h
    unfold SetGauge
    rw [h]

/-- Witness for C6 amended at concrete missing names. -/
theorem C6_missing_instrument_amended_witness :
    RecordHistogram noGaugeState "undeclared_hist" 2 [] =
      { noGaugeState with events := noGaugeState.events ++
          [.logWarn "Warning: Histogram undeclared_hist not found"] } ∧
    SetGauge noGaugeState "another_gauge" 2 [] = noGaugeState :=
  ⟨C6_missing_instrument_amended.1 noGaugeState "undeclared_hist" 2 [] rfl,
   C6_missing_instrument_amended.2 noGaugeState "another_gauge" 2 [] rfl⟩

/-! ## C7 -/

theorem mapLookup_of_growth {m m' : List (String × Instr)} {n : String}
    {i : Instr} (h : MapGrowth m m') (hn : mapLookup m n = some i) :
    mapLookup m' n = some i := by
  rcases h with rfl | ⟨k, v, hk, rfl⟩
  · exact hn
  · have hne : n ≠ k := by
      intro e
      subst e
      rw [hk] at hn
      cases hn
    rw [mapLookup_insert_ne m k n v hne]
    exact hn

theorem incrementCounter_nil_meter (s : TelemetryState) (n : String) (v : Int)
    (a : Attrs) (hlook : mapLookup s.counters n = none) (hm : s.meter = none) :
    IncrementCounter s n v a = (.panic, s) := by
  simp [IncrementCounter, CreateDynamicCounter, CreateCounter, hlook, hm]

theorem createCounter_growth (s : TelemetryState) (n d u : String) :
    MapGrowth s.counters (CreateCounter s n d u).2.counters ∧
    (CreateCounter s n d u).2.histograms = s.histograms ∧
    (CreateCounter s n d u).2.gauges = s.gauges := by
  cases hlook : mapLookup s.counters n with
  | some c => simp [CreateCounter, hlook, MapGrowth]
  | none =>
    cases hm : s.meter with
    | none => simp [CreateCounter, hlook, hm, MapGrowth]
    | some ok =>
      cases hok : ok n with
      | true =>
        refine ⟨Or.inr ⟨n, ⟨s.nextId, d, u⟩, hlook, ?_⟩, ?_, ?_⟩ <;>
          simp [CreateCounter, hlook, hm, hok]
      | false => simp [CreateCounter, hlook, hm, hok, MapGrowth]

theorem createHistogram_growth (s : TelemetryState) (n d u : String) :
    MapGrowth s.histograms (CreateHistogram s n d u).2.histograms ∧
    (CreateHistogram s n d u).2.counters = s.counters ∧
    (CreateHistogram s n d u).2.gauges = s.gauges := by
  cases hlook : mapLookup s.histograms n with
  | some c => simp [CreateHistogram, hlook, MapGrowth]
  | none =>
    cases hm : s.meter with
    | none => simp [CreateHistogram, hlook, hm, MapGrowth]
    | some ok =>
      cases hok : ok n with
      | true =>
        refine ⟨Or.inr ⟨n, ⟨s.nextId, d, u⟩, hlook, ?_⟩, ?_, ?_⟩ <;>
          simp [CreateHistogram, hlook, hm, hok]
      | false => simp [CreateHistogram, hlook, hm, hok, MapGrowth]

theorem createGauge_growth (s : TelemetryState) (n d u : String) :
    MapGrowth s.gauges (CreateGauge s n d u).2.gauges ∧
    (CreateGauge s n d u).2.counters = s.counters ∧
    (CreateGauge s n d u).2.histograms = s.histograms := by
  cases hlook : mapLookup s.gauges n with
  | some c => simp [CreateGauge, hlook, MapGrowth]
  | none =>
    cases hm : s.meter with
    | none => simp [CreateGauge, hlook, hm, MapGrowth]
    | some ok =>
      cases hok : ok n with
      | true =>
        refine ⟨Or.inr ⟨n, ⟨s.nextId, d, u⟩, hlook, ?_⟩, ?_, ?_⟩ <;>
          simp [CreateGauge, hlook, hm, hok]
      | false => simp [CreateGauge, hlook, hm, hok, MapGrowth]

theorem incrementCounter_growth (s : TelemetryState) (n : String) (v : Int)
    (a : Attrs) :
    MapGrowth s.counters (IncrementCounter s n v a).2.counters ∧
    (IncrementCounter s n v a).2.histograms = s.histograms ∧
    (IncrementCounter s n v a).2.gauges = s.gauges := by
  cases hlook : mapLookup s.counters n with
  | some c =>
    rw [incrementCounter_existing s n v a c hlook]
    exact ⟨Or.inl rfl, rfl, rfl⟩
  | none =>
    cases hm : s.meter with
    | none =>
      rw [incrementCounter_nil_meter s n v a hlook hm]
      exact ⟨Or.inl rfl, rfl, rfl⟩
    | some ok =>
      cases hok : ok n with
      | true =>
        rw [incrementCounter_create_ok s ok n v a hlook hm hok]
        exact ⟨Or.inr ⟨n, ⟨s.nextId, "Dynamic counter for " ++ n, ""⟩, hlook, rfl⟩,
               rfl, rfl⟩
      | false =>
        rw [incrementCounter_create_err s ok n v a hlook hm hok]
        exact ⟨Or.inl rfl, rfl, rfl⟩

theorem recordHistogram_maps (s : TelemetryState) (n : String) (v : Rat)
    (a : Attrs) :
    (RecordHistogram s n v a).counters = s.counters ∧
    (RecordHistogram s n v a).histograms = s.histograms ∧
    (RecordHistogram s n v a).gauges = s.gauges := by
  unfold RecordHistogram
  cases h : mapLookup s.histograms n <;> simp

theorem setGauge_maps (s : TelemetryState) (n : String) (v : Rat) (a : Attrs) :
    (SetGauge s n v a).counters = s.counters ∧
    (SetGauge s n v a).histograms = s.histograms ∧
    (SetGauge s n v a).gauges = s.gauges := by
  unfold SetGauge
  cases h : mapLookup s.gauges n <;> simp

theorem runOp_growth (s : TelemetryState) (op : Op) :
    MapGrowth s.counters (runOp s op).counters ∧
    MapGrowth s.histograms (runOp s op).histograms ∧
    MapGrowth s.gauges (runOp s op).gauges := by
  cases op with
  | createCounter n d u =>
    obtain ⟨h1, h2, h3⟩ := createCounter_growth s n d u
    exact ⟨h1, Or.inl h2, Or.inl h3⟩
  | createHistogram n d u =>
    obtain ⟨h1, h2, h3⟩ := createHistogram_growth s n d u
    exact ⟨Or.inl h2, h1, Or.inl h3⟩
  | createGauge n d u =>
    obtain ⟨h1, h2, h3⟩ := createGauge_growth s n d u
    exact ⟨Or.inl h2, Or.inl h3, h1⟩
  | incrementCounter n v a =>
    obtain ⟨h1, h2, h3⟩ := incrementCounter_growth s n v a
    exact ⟨h1, Or.inl h2, Or.inl h3⟩
  | recordHistogram n v a =>
    obtain ⟨h1, h2, h3⟩ := recordHistogram_maps s n v a
    exact ⟨Or.inl h1, Or.inl h2, Or.inl h3⟩
  | setGauge n v a =>
    obtain ⟨h1, h2, h3⟩ := setGauge_maps s n v a
    exact ⟨Or.inl h1, Or.inl h2, Or.inl h3⟩

theorem runOps_preserve (ops : List Op) :
    ∀ (s : TelemetryState) (n : String) (i : Instr),
      (mapLookup s.counters n = some i →
        mapLookup (runOps s ops).counters n = some i) ∧
      (mapLookup s.histograms n = some i →
        mapLookup (runOps s ops).histograms n = some i) ∧
      (mapLookup s.gauges n = some i →
        mapLookup (runOps s ops).gauges n = some i) := by
  induction ops with
  | nil => intro s n i; exact ⟨id, id, id⟩
  | cons op rest ih =>
    intro s n i
    have hg := runOp_growth s op
    obtain ⟨ihc, ihh, ihg⟩ := ih (runOp s op) n i
    exact ⟨fun h => ihc (mapLookup_of_growth hg.1 h),
           fun h => ihh (mapLookup_of_growth hg.2.1 h),
           fun h => ihg (mapLookup_of_growth hg.2.2 h)⟩

/-- Counterexample to C7 as stated: nothing cross-checks the three
per-kind maps, so `CreateCounter("x")` followed by `CreateGauge("x")`
leaves the same name simultaneously registered as a counter and as a
gauge. -/
theorem C7_name_bound_under_two_kinds :
    (mapLookup (runOps noGaugeState
        [.createCounter "x" "d" "u", .createGauge "x" "d" "u"]).counters
      "x").isSome = true ∧
    (mapLookup (runOps noGaugeState
        [.createCounter "x" "d" "u", .createGauge "x" "d" "u"]).gauges
      "x").isSome = true :=
  ⟨rfl, rfl⟩

/-- C7 amended: the one-kind-per-name invariant holds only per kind — once
a name is bound to an instrument within one kind's map, no sequence of
registry calls rebinds or removes it; but the same name can additionally
be registered under a different kind (see the counterexample). -/
theorem C7_per_kind_binding_stable (s : TelemetryState) (ops : List Op)
    (n : String) (i : Instr) :
    (mapLookup s.counters n = some i →
      mapLookup (runOps s ops).counters n = some i) ∧
    (mapLookup s.histograms n = some i →
      mapLookup (runOps s ops).histograms n = some i) ∧
    (mapLookup s.gauges n = some i →
      mapLookup (runOps s ops).gauges n = some i) :=
  runOps_preserve ops s n i

/-- Witness for C7 amended: after enabled-mode initialization, an attempt
to re-register `gc_runs_total` as a gauge leaves its counter binding
untouched. -/
theorem C7_per_kind_binding_stable_witness :
    mapLookup (runOps enabledState
        [.createGauge "gc_runs_total" "d" "u"]).counters "gc_runs_total" =
      some ⟨5, "Total number of completed GC cycles", ""⟩ :=
  (C7_per_kind_binding_stable enabledState [.createGauge "gc_runs_total" "d" "u"]
      "gc_runs_total" ⟨5, "Total number of completed GC cycles", ""⟩).1
    (by decide)

/-! ## C9 -/

/-- Counterexample to C9 as stated: delivery of the cancellation signal
does not make write steps unreachable. From the launched sampler, after
the cancellation step (done channel closed) the loop's `select` may still
pick the ready ticker branch — Go's `select` chooses among ready channels
— and that tick performs five gauge writes. (Moreover, as actually
launched by `InitTelemetry` the context is `context.Background()`, whose
done channel is never closed, so the cancellation the claim speaks of can
never even be delivered to the loop.) -/
theorem C9_write_step_after_cancellation :
    SamplerStep launchedSampler cancelledSampler ∧
    cancelledSampler.cancelled = true ∧
    SamplerStep cancelledSampler
      { cancelledSampler with
          tel := (sampleTick cancelledSampler.tel cancelledSampler.lastNumGC
            tickSample).1,
          lastNumGC := (sampleTick cancelledSampler.tel
            cancelledSampler.lastNumGC tickSample).2 } ∧
    List.countP isMetricWrite
      (sampleTick cancelledSampler.tel cancelledSampler.lastNumGC
        tickSample).1.events = 5 ∧
    List.countP isMetricWrite cancelledSampler.tel.events = 0 :=
  ⟨SamplerStep.cancel launchedSampler rfl, rfl,
   SamplerStep.selectTick cancelledSampler rfl tickSample, by decide, rfl⟩

/-- C9 amended: once the sampler loop itself observes the cancellation —
takes the `ctx.Done()` branch of the `select` — it returns, its ticker is
stopped, that transition writes nothing, and from the stopped loop no
reachable state ever carries further writes. Delivery of the signal alone
does not bound the writes (a concurrently ready tick may still be
selected first), and as launched by `InitTelemetry` the context is never
cancelled at all. -/
theorem C9_sampler_stop_amended :
    (∀ (s u : SamplerState), SamplerReach s u →
      s.phase = SamplerPhase.stopped →
      u.tel.events = s.tel.events ∧ u.phase = SamplerPhase.stopped) ∧
    (∀ (s t : SamplerState), SamplerStep s t → s.cancelled = true →
      t.phase = SamplerPhase.stopped → s.phase = SamplerPhase.running →
      t.tickerActive = false ∧ t.tel.events = s.tel.events) := by
  constructor
  · intro s u hreach
    induction hreach with
    | refl s => intro hstop; exact ⟨rfl, hstop⟩
    | step h h' ih =>
      intro hstop
      cases h with
      | cancel hc => exact ih hstop
      | selectDone hr hc =>
        rw [hstop] at hr
        cases hr
      | selectTick hr m =>
        rw [hstop] at hr
        cases hr
  · intro s t h hc hstopped hrun
    cases h with
    | cancel h0 =>
      have h2 : s.phase = SamplerPhase.stopped := hstopped
      rw [hrun] at h2
      cases h2
    | selectDone hr hc2 => exact ⟨rfl, rfl⟩
    | selectTick hr m =>
      have h2 : s.phase = SamplerPhase.stopped := hstopped
      rw [hrun] at h2
      cases h2

/-- Witness for C9 amended at concrete sampler states. -/
theorem C9_sampler_stop_amended_witness :
    (stoppedSampler.tel.events = stoppedSampler.tel.events ∧
      stoppedSampler.phase = SamplerPhase.stopped) ∧
    (({ cancelledSampler with
          phase := SamplerPhase.stopped,
          tickerActive := false } : SamplerState).tickerActive = false ∧
      ({ cancelledSampler with
          phase := SamplerPhase.stopped,
          tickerActive := false } : SamplerState).tel.events =
        cancelledSampler.tel.events) :=
  ⟨C9_sampler_stop_amended.1 stoppedSampler stoppedSampler
      (SamplerReach.refl stoppedSampler) rfl,
   C9_sampler_stop_amended.2 cancelledSampler _
      (SamplerStep.selectDone cancelledSampler rfl rfl) rfl rfl rfl⟩

/-! ## C10 -/

theorem sanitizeChar_idem (r : Char) :
    sanitizeChar (sanitizeChar r) = sanitizeChar r := by
  unfold sanitizeChar
  cases h : isAlnumChar r with
  | true => simp [h]
  | false =>
    simp only [h, Bool.false_eq_true, if_false]
    decide

theorem sanitizeChar_class (r : Char) :
    isAlnumChar (sanitizeChar r) = true ∨ sanitizeChar r = '_' := by
  unfold sanitizeChar
  cases h : isAlnumChar r with
  | true => simp [h]
  | false => simp [h]

/-- C10: `sanitizePath` is idempotent, its output contains only ASCII
alphanumeric characters and the underscore filler, and it has exactly as
many characters as its input. -/
theorem C10_sanitize_path_idem_class_length (p : String) :
    sanitizePath (sanitizePath p) = sanitizePath p ∧
    (∀ c ∈ (sanitizePath p).data, isAlnumChar c = true ∨ c = '_') ∧
    (sanitizePath p).length = p.length := by
  refine ⟨?_, ?_, ?_⟩
  · unfold sanitizePath
    simp only [List.map_map]
    congr 1
    exact List.map_congr_left fun r _ => sanitizeChar_idem r
  · intro c hc
    unfold sanitizePath at hc
    simp only [List.mem_map] at hc
    obtain ⟨r, _, rfl⟩ := hc
    exact sanitizeChar_class r
  · show (p.data.map sanitizeChar).length = p.length
    rw [List.length_map]
    rfl

/-- Witness for C10 at a concrete request path. -/
theorem C10_sanitize_path_witness :
    sanitizePath (sanitizePath "/v1/users?id=7") = sanitizePath "/v1/users?id=7" ∧
    (isAlnumChar 'v' = true ∨ 'v' = '_') ∧
    (sanitizePath "/v1/users?id=7").length = ("/v1/users?id=7" : String).length :=
  ⟨(C10_sanitize_path_idem_class_length "/v1/users?id=7").1,
   (C10_sanitize_path_idem_class_length "/v1/users?id=7").2.1 'v' (by decide),
   (C10_sanitize_path_idem_class_length "/v1/users?id=7").2.2⟩

theorem routeCounterName_ne_total (m p : String) :
    routeCounterName m p ≠ "http_requests_total" := by
  intro h
  have hd : ("http_requests_" ++ goToLower m ++ "_" ++ sanitizePath p).data =
      "http_requests_total".data := congrArg String.data h
  rw [String.data_append, String.data_append, String.data_append] at hd
  have hcount := congrArg (List.count '_') hd
  rw [List.count_append, List.count_append, List.count_append] at hcount
  have h1 : List.count '_' "http_requests_".data = 2 := by decide
  have h2 : List.count '_' "_".data = 1 := by decide
  have h3 : List.count '_' "http_requests_total".data = 2 := by decide
  rw [h1, h2, h3] at hcount
  omega

theorem recordHistogram_missing (s : TelemetryState) (n : String) (v : Rat)
    (a : Attrs) (hh : mapLookup s.histograms n = none) :
    RecordHistogram s n v a =
      { s with events := s.events ++
          [.logWarn ("Warning: Histogram " ++ n ++ " not found")] } := by
  unfold RecordHistogram
  rw [hh]

theorem recordHistogram_existing (s : TelemetryState) (n : String) (v : Rat)
    (a : Attrs) (hst : Instr) (hh : mapLookup s.histograms n = some hst) :
    RecordHistogram s n v a =
      { s with events := s.events ++ [.histogramRecord hst n v a] } := by
  unfold RecordHistogram
  rw [hh]

theorem recordedStatus_keep (ops : List WriterOp) :
    (∀ c, WriterOp.writeHeader c ∉ ops) → ∀ st : Nat,
      ops.foldl (fun st op => match op with
        | WriterOp.writeHeader c => c
        | WriterOp.writeBody => st) st = st := by
  induction ops with
  | nil => intro _ st; rfl
  | cons op rest ih =>
    intro h st
    cases op with
    | writeHeader c => exact absurd (List.mem_cons_self _ _) (h c)
    | writeBody => exact ih (fun c hc => h c (List.mem_cons_of_mem _ hc)) st

theorem recordedStatus_last (ops : List WriterOp) (c : Nat) :
    recordedStatus (ops ++ [WriterOp.writeHeader c]) = c := by
  unfold recordedStatus
  rw [List.foldl_append]
  rfl

theorem incrementCounter_shape (s : TelemetryState) (ok : String → Bool)
    (n : String) (v : Int) (attrs : Attrs) (hm : s.meter = some ok) :
    (IncrementCounter s n v attrs).1 = GoResult.ok () ∧
    (∃ e : TEvent,
      (IncrementCounter s n v attrs).2.events = s.events ++ [e] ∧
      ((∃ c, e = .counterAdd c n v attrs) ∨
        e = .logWarn ("Warning: Failed to create counter " ++ n))) ∧
    MapGrowth s.counters (IncrementCounter s n v attrs).2.counters ∧
    (IncrementCounter s n v attrs).2.histograms = s.histograms ∧
    (IncrementCounter s n v attrs).2.gauges = s.gauges ∧
    (IncrementCounter s n v attrs).2.meter = s.meter := by
  cases hlook : mapLookup s.counters n with
  | some c =>
    rw [incrementCounter_existing s n v attrs c hlook]
    exact ⟨rfl, ⟨_, rfl, Or.inl ⟨c, rfl⟩⟩, Or.inl rfl, rfl, rfl, rfl⟩
  | none =>
    cases hok : ok n with
    | true =>
      rw [incrementCounter_create_ok s ok n v attrs hlook hm hok]
      exact ⟨rfl, ⟨_, rfl, Or.inl ⟨_, rfl⟩⟩, Or.inr ⟨n, _, hlook, rfl⟩, rfl, rfl, rfl⟩
    | false =>
      rw [incrementCounter_create_err s ok n v attrs hlook hm hok]
      exact ⟨rfl, ⟨_, rfl, Or.inr rfl⟩, Or.inl rfl, rfl, rfl, rfl⟩

theorem incrementCounter_adds (s : TelemetryState) (ok : String → Bool)
    (n : String) (v : Int) (attrs : Attrs) (hm : s.meter = some ok)
    (hc : mapLookup s.counters n ≠ none ∨ ok n = true) :
    ∃ c, (IncrementCounter s n v attrs).2.events =
      s.events ++ [.counterAdd c n v attrs] := by
  cases hlook : mapLookup s.counters n with
  | some c =>
    rw [incrementCounter_existing s n v attrs c hlook]
    exact ⟨c, rfl⟩
  | none =>
    have hok : ok n = true := by
      rcases hc with hc | hc
      · exact absurd hlook hc
      · exact hc
    rw [incrementCounter_create_ok s ok n v attrs hlook hm hok]
    exact ⟨_, rfl⟩

theorem traceMiddleware_run (s : TelemetryState) (ok : String → Bool)
    (hObs ctr : Instr) (method path : String) (ops : List WriterOp) (d : Rat)
    (hm : s.meter = some ok)
    (hh : mapLookup s.histograms "http_request_duration_seconds" = some hObs)
    (hc : mapLookup s.counters "http_requests_total" = some ctr) :
    (TraceMiddleware s method path ops d).1 = GoResult.ok () ∧
    ∃ e4 : TEvent,
      (TraceMiddleware s method path ops d).2.events =
        s.events ++
          [TEvent.spanStatus (recordedStatus ops),
           TEvent.histogramRecord hObs "http_request_duration_seconds" d
             [("method", method), ("path", path),
              ("status", toString (recordedStatus ops))],
           TEvent.counterAdd ctr "http_requests_total" 1
             [("method", method), ("path", path),
              ("status", toString (recordedStatus ops))],
           e4] ∧
      ((∃ c, e4 = TEvent.counterAdd c (routeCounterName method path) 1
            [("status", toString (recordedStatus ops))]) ∨
        e4 = TEvent.logWarn ("Warning: Failed to create counter " ++
          routeCounterName method path)) ∧
      (mapLookup s.counters (routeCounterName method path) ≠ none ∨
          ok (routeCounterName method path) = true →
        ∃ c, e4 = TEvent.counterAdd c (routeCounterName method path) 1
          [("status", toString (recordedStatus ops))]) := by
  cases hroute : mapLookup s.counters (routeCounterName method path) with
  | some rc =>
    refine ⟨?_, TEvent.counterAdd rc (routeCounterName method path) 1
        [("status", toString (recordedStatus ops))], ?_, Or.inl ⟨rc, rfl⟩,
        fun _ => ⟨rc, rfl⟩⟩ <;>
      simp [TraceMiddleware, RecordHistogram, IncrementCounter,
        CreateDynamicCounter, CreateCounter, hh, hc, hm, hroute]
  | none =>
    cases hok : ok (routeCounterName method path) with
    | true =>
      refine ⟨?_, TEvent.counterAdd
          ⟨s.nextId, "Dynamic counter for " ++ routeCounterName method path, ""⟩
          (routeCounterName method path) 1
          [("status", toString (recordedStatus ops))], ?_,
          Or.inl ⟨_, rfl⟩, fun _ => ⟨_, rfl⟩⟩ <;>
        simp [TraceMiddleware, RecordHistogram, IncrementCounter,
          CreateDynamicCounter, CreateCounter, hh, hc, hm, hroute, hok]
    | false =>
      refine ⟨?_, TEvent.logWarn ("Warning: Failed to create counter " ++
          routeCounterName method path), ?_, Or.inr rfl, ?_⟩
      · simp [TraceMiddleware, RecordHistogram, IncrementCounter,
          CreateDynamicCounter, CreateCounter, hh, hc, hm, hroute, hok]
      · simp [TraceMiddleware, RecordHistogram, IncrementCounter,
          CreateDynamicCounter, CreateCounter, hh, hc, hm, hroute, hok]
      · intro hcon
        rcases hcon with hcon | hcon
        · exact absurd rfl hcon
        · simp at hcon

theorem isHistObs_spanStatus (n : String) (c : Nat) :
    isHistObs n (.spanStatus c) = false := rfl

theorem isHistObs_logWarn (n msg : String) :
    isHistObs n (.logWarn msg) = false := rfl

theorem isHistObs_counterAdd (n : String) (i : Instr) (m : String) (v : Int)
    (a : Attrs) : isHistObs n (.counterAdd i m v a) = false := rfl

theorem isHistObs_histogramRecord (n : String) (i : Instr) (m : String)
    (v : Rat) (a : Attrs) :
    isHistObs n (.histogramRecord i m v a) = decide (m = n) := rfl

theorem isCounterAdd_spanStatus (n : String) (c : Nat) :
    isCounterAdd n (.spanStatus c) = false := rfl

theorem isCounterAdd_logWarn (n msg : String) :
    isCounterAdd n (.logWarn msg) = false := rfl

theorem isCounterAdd_histogramRecord (n : String) (i : Instr) (m : String)
    (v : Rat) (a : Attrs) :
    isCounterAdd n (.histogramRecord i m v a) = false := rfl

theorem isCounterAdd_counterAdd (n : String) (i : Instr) (m : String) (v : Int)
    (a : Attrs) : isCounterAdd n (.counterAdd i m v a) = decide (m = n) := rfl

theorem isCounterAddOne_spanStatus (n : String) (c : Nat) :
    isCounterAddOne n (.spanStatus c) = false := rfl

theorem isCounterAddOne_logWarn (n msg : String) :
    isCounterAddOne n (.logWarn msg) = false := rfl

theorem isCounterAddOne_histogramRecord (n : String) (i : Instr) (m : String)
    (v : Rat) (a : Attrs) :
    isCounterAddOne n (.histogramRecord i m v a) = false := rfl

theorem isCounterAddOne_counterAdd (n : String) (i : Instr) (m : String)
    (v : Int) (a : Attrs) :
    isCounterAddOne n (.counterAdd i m v a) = (decide (m = n) && (v == 1)) := rfl

/-- C3 amended: for each request through the middleware (with the built-in
duration histogram and total counter registered and a meter installed),
the recorded status is 200 when the handler never calls `WriteHeader`; a
trailing `WriteHeader(c)` makes the recorded status `c` — in general the
LAST status code written wins, because every `WriteHeader` call overwrites
`customResponseWriter.statusCode` (the claim's "first status code written"
is wrong, see the counterexample); the captured status is attached to the
span, and each request appends exactly one histogram observation on
`http_request_duration_seconds` and exactly one counter add on
`http_requests_total`. -/
theorem C3_middleware_status_counts (s : TelemetryState) (ok : String → Bool)
    (hObs ctr : Instr) (method path : String) (ops : List WriterOp) (d : Rat)
    (hm : s.meter = some ok)
    (hh : mapLookup s.histograms "http_request_duration_seconds" = some hObs)
    (hc : mapLookup s.counters "http_requests_total" = some ctr) :
    ((∀ c, WriterOp.writeHeader c ∉ ops) → recordedStatus ops = 200) ∧
    (∀ (pre : List WriterOp) (c : Nat),
      recordedStatus (pre ++ [WriterOp.writeHeader c]) = c) ∧
    (TraceMiddleware s method path ops d).1 = GoResult.ok () ∧
    TEvent.spanStatus (recordedStatus ops) ∈
      (TraceMiddleware s method path ops d).2.events ∧
    List.countP (isHistObs "http_request_duration_seconds")
        (TraceMiddleware s method path ops d).2.events =
      List.countP (isHistObs "http_request_duration_seconds") s.events + 1 ∧
    List.countP (isCounterAdd "http_requests_total")
        (TraceMiddleware s method path ops d).2.events =
      List.countP (isCounterAdd "http_requests_total") s.events + 1 := by
  obtain ⟨h1, e4, hev, hcase, _⟩ :=
    traceMiddleware_run s ok hObs ctr method path ops d hm hh hc
  have hne := routeCounterName_ne_total method path
  have h4h : isHistObs "http_request_duration_seconds" e4 = false := by
    rcases hcase with ⟨c, rfl⟩ | rfl <;> rfl
  have h4c : isCounterAdd "http_requests_total" e4 = false := by
    rcases hcase with ⟨c, rfl⟩ | rfl
    · rw [isCounterAdd_counterAdd]
      simp [hne]
    · rfl
  refine ⟨fun h => recordedStatus_keep ops h 200, recordedStatus_last, h1, ?_, ?_, ?_⟩
  · rw [hev]; simp
  · rw [hev, List.countP_append]
    simp [List.countP_cons, isHistObs_spanStatus, isHistObs_histogramRecord,
      isHistObs_counterAdd, h4h]
  · rw [hev, List.countP_append]
    simp [List.countP_cons, isCounterAdd_spanStatus,
      isCounterAdd_histogramRecord, isCounterAdd_counterAdd, h4c]

/-- C8: each request through the middleware increments by exactly 1 an
additional dynamic counter named
`http_requests_<lowercased method>_<sanitized path>`, where the sanitized
path replaces every non-alphanumeric rune with the underscore filler and
keeps alphanumerics unchanged (provided a meter is installed so the
counter exists or can be created). -/
theorem C8_dynamic_route_counter (s : TelemetryState) (ok : String → Bool)
    (hObs ctr : Instr) (method path : String) (ops : List WriterOp) (d : Rat)
    (hm : s.meter = some ok)
    (hh : mapLookup s.histograms "http_request_duration_seconds" = some hObs)
    (hc : mapLookup s.counters "http_requests_total" = some ctr)
    (hroute : mapLookup s.counters (routeCounterName method path) ≠ none ∨
      ok (routeCounterName method path) = true) :
    List.countP (isCounterAddOne (routeCounterName method path))
        (TraceMiddleware s method path ops d).2.events =
      List.countP (isCounterAddOne (routeCounterName method path)) s.events + 1 ∧
    routeCounterName method path =
      "http_requests_" ++ goToLower method ++ "_" ++ sanitizePath path ∧
    ∀ r : Char, sanitizeChar r = if isAlnumChar r then r else '_' := by
  obtain ⟨h1, e4, hev, hcase, hcond⟩ :=
    traceMiddleware_run s ok hObs ctr method path ops d hm hh hc
  obtain ⟨c, rfl⟩ := hcond hroute
  have hne := routeCounterName_ne_total method path
  refine ⟨?_, rfl, fun r => rfl⟩
  rw [hev, List.countP_append]
  simp [List.countP_cons, isCounterAddOne_spanStatus,
    isCounterAddOne_histogramRecord, isCounterAddOne_counterAdd, hne.symm]

/-- Counterexample to C3 as stated: a handler calling `WriteHeader(404)`
then `WriteHeader(500)` gets 500 recorded and attached to the span — the
LAST written status, not the first. -/
theorem C3_last_write_wins_cex :
    recordedStatus [WriterOp.writeHeader 404, WriterOp.writeHeader 500] = 500 ∧
    TEvent.spanStatus 500 ∈
      (TraceMiddleware enabledState "GET" "/a"
        [WriterOp.writeHeader 404, WriterOp.writeHeader 500] 1).2.events ∧
    TEvent.spanStatus 404 ∉
      (TraceMiddleware enabledState "GET" "/a"
        [WriterOp.writeHeader 404, WriterOp.writeHeader 500] 1).2.events := by
  refine ⟨rfl, ?_, ?_⟩ <;> decide

/-- Witness for C3 amended at the enabled-init state with a 404 handler. -/
theorem C3_middleware_status_counts_witness :
    ((∀ c, WriterOp.writeHeader c ∉ ([WriterOp.writeHeader 404] : List WriterOp)) →
      recordedStatus [WriterOp.writeHeader 404] = 200) ∧
    (∀ (pre : List WriterOp) (c : Nat),
      recordedStatus (pre ++ [WriterOp.writeHeader c]) = c) ∧
    (TraceMiddleware enabledState "GET" "/a" [WriterOp.writeHeader 404] 1).1 =
      GoResult.ok () ∧
    TEvent.spanStatus (recordedStatus [WriterOp.writeHeader 404]) ∈
      (TraceMiddleware enabledState "GET" "/a" [WriterOp.writeHeader 404] 1).2.events ∧
    List.countP (isHistObs "http_request_duration_seconds")
        (TraceMiddleware enabledState "GET" "/a" [WriterOp.writeHeader 404] 1).2.events =
      List.countP (isHistObs "http_request_duration_seconds") enabledState.events + 1 ∧
    List.countP (isCounterAdd "http_requests_total")
        (TraceMiddleware enabledState "GET" "/a" [WriterOp.writeHeader 404] 1).2.events =
      List.countP (isCounterAdd "http_requests_total") enabledState.events + 1 :=
  C3_middleware_status_counts enabledState allOk
    ⟨6, "HTTP request duration in seconds", "s"⟩
    ⟨7, "Total number of HTTP requests", ""⟩
    "GET" "/a" [WriterOp.writeHeader 404] 1 rfl (by decide) (by decide)

/-- Witness for C8 at the enabled-init state for `GET /api`. -/
theorem C8_dynamic_route_counter_witness :
    List.countP (isCounterAddOne (routeCounterName "GET" "/api"))
        (TraceMiddleware enabledState "GET" "/api" [] 1).2.events =
      List.countP (isCounterAddOne (routeCounterName "GET" "/api"))
        enabledState.events + 1 ∧
    routeCounterName "GET" "/api" =
      "http_requests_" ++ goToLower "GET" ++ "_" ++ sanitizePath "/api" ∧
    ∀ r : Char, sanitizeChar r = if isAlnumChar r then r else '_' :=
  C8_dynamic_route_counter enabledState allOk
    ⟨6, "HTTP request duration in seconds", "s"⟩
    ⟨7, "Total number of HTTP requests", ""⟩
    "GET" "/api" [] 1 rfl (by decide) (by decide) (Or.inr rfl)
